import Mathlib

/-!
# Verification of the caching and batch-execution core of `ec2menu_v5.5.0_mac.py`

This file gives a shallow embedding of the two subsystems specified for the
repository: the `PerformanceCache` (time-keyed cache with per-resource-class
TTLs and background refresh) and the `BatchJobManager` batch command executor
(per-target retry loop, polling loop, fan-out collection, manual re-drive).

Modelling conventions:
  * Python `dict`s keyed by strings become association lists with Python dict
    update semantics (`dictSet` replaces in place, `dictPop` removes).
  * `datetime.now()` / `time.time()` become explicit clock parameters; wall
    clock time advances only at the `time.sleep` calls of the source, by the
    slept amount (the remote API calls are modelled as instantaneous).
  * Thread effects are modelled as explicit state transitions: spawning the
    background refresh thread is recorded as a spawn count (the spawned
    `refresh_worker` invokes the fetch function exactly once), and the body of
    `refresh_worker` is a state transition parametrised by the outcome of the
    fetch call.
  * The remote SSM service is an oracle (`SsmBehavior`): for every attempt it
    determines the outcome of `send_command` and, for every polling iteration,
    the outcome of `get_command_invocation`.
  * Fallible paths return `Option`/sum types; Python's implicit `None` return
    (falling off the end of `execute_on_instance`) is `none`.
-/

set_option autoImplicit false
set_option linter.unnecessarySeqFocus false

namespace EC2Menu

/-! ## Python dict operations (string-keyed association lists) -/

/-- `m.get(k)`: first binding of `k`, if any. -/
def dictGet {β : Type} (m : List (String × β)) (k : String) : Option β :=
  (m.find? (fun p => p.1 == k)).map (fun p => p.2)

/-- `m[k] = v`: replace the binding in place if present, else append. -/
def dictSet {β : Type} : List (String × β) → String → β → List (String × β)
  | [], k, v => [(k, v)]
  | (a, b) :: tl, k, v =>
    if a == k then (k, v) :: tl else (a, b) :: dictSet tl k v

/-- `m.pop(k, None)`: remove the binding of `k` if present. -/
def dictPop {β : Type} (m : List (String × β)) (k : String) : List (String × β) :=
  m.filter (fun p => p.1 != k)

/-! ## Config constants (class `Config` of the source) -/

/-- `Config.CACHE_TTLS` (lines 238-254): per-resource-class TTLs in seconds. -/
def CACHE_TTLS : List (String × Int) :=
  [("instances", 120), ("ssm", 120), ("rds", 300), ("elasticache", 300),
   ("ecs", 600), ("eks", 600), ("regions", 3600),
   ("cloudwatch_dashboards", 600), ("cloudwatch_alarms", 120),
   ("cloudwatch_logs", 60), ("lambda", 300), ("s3_buckets", 600),
   ("s3_objects", 60), ("default", 300)]

/-- `Config.BATCH_COMMAND_RETRY = 3`: retries beyond the first attempt. -/
def BATCH_COMMAND_RETRY : Nat := 3

/-- `Config.BATCH_RETRY_DELAY = 10`: base backoff delay in seconds. -/
def BATCH_RETRY_DELAY : Nat := 10

/-- `Config.BATCH_RETRY_MAX_DELAY = 60`: backoff ceiling in seconds. -/
def BATCH_RETRY_MAX_DELAY : Nat := 60

/-- `Config.WAIT_PORT_READY = 2`: the sleep used for non-lookup `ClientError`s
in the polling loop. -/
def WAIT_PORT_READY : Nat := 2

/-! ## Cache data model (`CacheEntry`, `PerformanceCache`, lines 138-201) -/

/-- `CacheEntry` dataclass: payload, insertion timestamp, TTL in seconds. -/
structure CacheEntry (α : Type) where
  data : α
  timestamp : Int
  ttl_seconds : Int
deriving DecidableEq

/-- `CacheEntry.is_expired`: `datetime.now() - self.timestamp >
timedelta(seconds=self.ttl_seconds)`, with `now` passed explicitly. -/
def CacheEntry.is_expired {α : Type} (e : CacheEntry α) (now : Int) : Bool :=
  decide (now - e.timestamp > e.ttl_seconds)

/-- State of a `PerformanceCache` instance: the `_cache` dict and the
`_background_refresh_active` dict (used as a set of keys). -/
structure PerformanceCache (α : Type) where
  cache : List (String × CacheEntry α)
  background_refresh_active : List String
deriving DecidableEq

/-- Python's `str.lower`, on the ASCII keys this program uses. -/
def pyLower (s : String) : String :=
  String.mk (s.data.map Char.toLower)

/-- Python's `str.split(sep)` on the character list of a string: the list of
(possibly empty) chunks between separators. Never returns `[]`. -/
def pySplit (sep : Char) : List Char → List (List Char)
  | [] => [[]]
  | c :: cs =>
    if c = sep then [] :: pySplit sep cs
    else
      match pySplit sep cs with
      | [] => [[c]]
      | h :: t => (c :: h) :: t

/-- `PerformanceCache._get_ttl_for_key` (lines 153-157):
`resource_type = key.split('_')[0].lower() if '_' in key else 'default'`,
then `Config.CACHE_TTLS.get(resource_type, Config.CACHE_TTLS['default'])`.
The `'default'` entry always exists, so the final `.getD 0` is unreachable. -/
def get_ttl_for_key (key : String) : Int :=
  let resource_type : String :=
    if key.data.contains '_' then pyLower (String.mk ((pySplit '_' key.data).headD []))
    else "default"
  match dictGet CACHE_TTLS resource_type with
  | some t => t
  | none => (dictGet CACHE_TTLS "default").getD 0

/-- TTL resolution as the specification words it: the text of the key before
the first `'_'` separator, lowercased, is the resource-class prefix; it is
looked up in the TTL policy, and the default TTL (300) is used when the prefix
is not a policy class, which includes every key containing no separator. This
definition is written from the claim text, to be compared with
`get_ttl_for_key` (written from the source). -/
def ttlFromSpec (key : String) : Int :=
  if key.data.contains '_' then
    match dictGet CACHE_TTLS (pyLower (String.mk (key.data.takeWhile (fun c => c != '_')))) with
    | some t => t
    | none => 300
  else 300

/-- `PerformanceCache.get` (lines 159-164), as a state transformer: returns
the value when a non-expired entry exists, and the (unchanged) state. -/
def PerformanceCache.get {α : Type} (c : PerformanceCache α) (key : String)
    (now : Int) : Option α × PerformanceCache α :=
  (match dictGet c.cache key with
   | some e => if e.is_expired now then none else some e.data
   | none => none,
   c)

/-- `PerformanceCache.set` (lines 166-171): derive the TTL from the key when
none is supplied, then replace the entry wholesale with timestamp `now`. -/
def PerformanceCache.set {α : Type} (c : PerformanceCache α) (key : String)
    (data : α) (ttl_seconds : Option Int) (now : Int) : PerformanceCache α :=
  let ttl := match ttl_seconds with
    | some t => t
    | none => get_ttl_for_key key
  { c with cache := dictSet c.cache key ⟨data, now, ttl⟩ }

/-- `PerformanceCache.invalidate` (lines 173-175): `self._cache.pop(key, None)`. -/
def PerformanceCache.invalidate {α : Type} (c : PerformanceCache α)
    (key : String) : PerformanceCache α :=
  { c with cache := dictPop c.cache key }

/-- `PerformanceCache.clear` (lines 177-179): `self._cache.clear()`. -/
def PerformanceCache.clear {α : Type} (c : PerformanceCache α) : PerformanceCache α :=
  { c with cache := [] }

/-- `PerformanceCache.start_background_refresh` (lines 181-198): when `key` is
already in `_background_refresh_active`, return immediately; otherwise mark it
in flight and spawn one `refresh_worker` thread. The returned `Nat` counts the
worker threads spawned by this call; each spawned worker invokes the fetch
function exactly once, so it also counts eventual fetch invocations. -/
def PerformanceCache.start_background_refresh {α : Type} (c : PerformanceCache α)
    (key : String) : Nat × PerformanceCache α :=
  if c.background_refresh_active.contains key then (0, c)
  else (1, { c with background_refresh_active := c.background_refresh_active ++ [key] })

/-- Body of `refresh_worker` (lines 188-196), parametrised by the outcome of
`refresh_func(*args, **kwargs)`: on success `self.set(key, new_data)` (TTL
derived from the key), on failure only a warning is logged; in both cases the
`finally` block pops `key` from `_background_refresh_active`. The function is
total: no outcome re-raises into the caller's context. -/
def PerformanceCache.refresh_worker {α : Type} (c : PerformanceCache α)
    (key : String) (fetch : Except String α) (now : Int) : PerformanceCache α :=
  let c1 := match fetch with
    | .ok v => c.set key v none now
    | .error _ => c
  { c1 with
    background_refresh_active := c1.background_refresh_active.filter (fun k => k != key) }

/-! ## Batch executor data model (`BatchJobResult`, lines 1092-1101) -/

/-- The fields of `instance_data` that `execute_on_instance` reads:
`instance_data['raw']['InstanceId']` and `instance_data['Name']`. -/
structure InstanceData where
  instanceId : String
  name : String
deriving DecidableEq

/-- `BatchJobResult` dataclass. `execution_time` (a float of seconds in the
source) is modelled in whole seconds; `timestamp` is `datetime.now()`. -/
structure BatchJobResult where
  command : String
  instance_id : String
  instance_name : String
  status : String
  output : String
  error : String
  execution_time : Nat
  timestamp : Int
deriving DecidableEq

/-- One `get_command_invocation` call inside the polling loop: either an
invocation record with a `Status` (plus output/error/details contents), a
botocore `ClientError` with an error code, or any other exception. -/
inductive PollEvent where
  | invocation (status stdout stderr details : String)
  | clientError (code : String)
  | otherError (msg : String)
deriving DecidableEq

/-- One `send_command` call: success (a command id is returned), a
`ClientError`, or any other exception. -/
inductive SendOutcome where
  | ok
  | clientError (code msg : String)
  | otherError (msg : String)
deriving DecidableEq

/-- The remote SSM service as seen by one worker: per attempt index, the
outcome of `send_command`; per attempt index and polling iteration, the
outcome of `get_command_invocation`. -/
structure SsmBehavior where
  send : Nat → SendOutcome
  poll : Nat → Nat → PollEvent

/-- Outcome of the `while waited < max_wait and attempt_count < max_attempts`
polling loop (lines 1223-1289), carrying the wall clock at exit. -/
inductive PollResult where
  | terminal (status stdout stderr details : String) (clock : Nat)
  | timedOut (clock : Nat)
  | escaped (msg : String) (clock : Nat)
deriving DecidableEq

/-- The polling loop (lines 1223-1289). `fuel` is `max_attempts -
attempt_count` (the loop body runs only while `attempt_count < max_attempts`
and `waited < max_wait`). A terminal `Status` exits with the record's
contents; a non-terminal one sleeps 3s (`waited += 3`); a `ClientError` with
code `InvocationDoesNotExist` sleeps 2s (`waited += 2`); any other
`ClientError` sleeps `Config.WAIT_PORT_READY` (`waited += 2`); any
non-`ClientError` exception escapes the loop uncaught. -/
def pollLoop (events : Nat → PollEvent) (maxWait : Nat) :
    Nat → Nat → Nat → Nat → PollResult
  | 0, _, _, clock => .timedOut clock
  | fuel + 1, waited, idx, clock =>
    if waited < maxWait then
      match events idx with
      | .invocation status stdout stderr details =>
        if status = "Success" ∨ status = "Failed" ∨ status = "Cancelled" ∨ status = "TimedOut" then
          .terminal status stdout stderr details clock
        else
          pollLoop events maxWait fuel (waited + 3) (idx + 1) (clock + 3)
      | .clientError code =>
        if code = "InvocationDoesNotExist" then
          pollLoop events maxWait fuel (waited + 2) (idx + 1) (clock + 2)
        else
          pollLoop events maxWait fuel (waited + 2) (idx + 1) (clock + WAIT_PORT_READY)
      | .otherError msg => .escaped msg clock
    else .timedOut clock

/-- What one attempt's `try` block produced, as seen by the retry policy:
terminal `Success`; terminal `Failed`/`Cancelled`/`TimedOut`; polling loop
exhausted; or an exception reaching the outer handlers (a `ClientError` from
`send_command`, a generic exception from `send_command`, the deliberate
`raise` on a retryable terminal failure, or an escape from polling). -/
inductive AttemptOutcome where
  | success (stdout : String) (clock : Nat)
  | terminalFail (stderr details : String) (clock : Nat)
  | pollTimeout (clock : Nat)
  | exn (msg : String) (clock : Nat)
deriving DecidableEq

/-- The `try` block of one attempt (lines 1203-1311): `send_command`, then the
polling loop with `max_wait = timeout_seconds + 30` and `max_attempts = 200`.
Exceptions from `send_command` (both `except` arms, lines 1313-1353) behave
identically apart from logging, as does a non-`ClientError` escape from
polling, so all three map to `exn`. -/
def attemptTry (beh : SsmBehavior) (timeout_seconds attempt clock : Nat) : AttemptOutcome :=
  match beh.send attempt with
  | .ok =>
    match pollLoop (beh.poll attempt) (timeout_seconds + 30) 200 0 0 clock with
    | .terminal status stdout stderr details clock2 =>
      if status = "Success" then .success stdout clock2
      else .terminalFail stderr details clock2
    | .timedOut clock2 => .pollTimeout clock2
    | .escaped msg clock2 => .exn msg clock2
  | .clientError _ msg => .exn msg clock
  | .otherError msg => .exn msg clock

/-- Result of one iteration of the `for attempt in range(max_retries + 1)`
loop: a `return` with a `BatchJobResult`, or a `continue` to the next attempt
(carrying the wall clock). -/
inductive AttemptStep where
  | done (r : BatchJobResult)
  | retry (clock : Nat)
deriving DecidableEq

/-- One iteration of the retry loop of `execute_on_instance` (lines
1187-1353). `start_time = time.time()` is taken before the backoff sleep
(line 1188); for `attempt > 0` the loop sleeps
`min(BATCH_RETRY_DELAY * attempt, BATCH_RETRY_MAX_DELAY)`. A terminal
`Success` returns SUCCESS with `output.strip()`. Every other outcome retries
when `attempt < max_retries` and otherwise returns: terminal failure as FAILED
with `StandardErrorContent or StatusDetails`, polling exhaustion as TIMEOUT,
and an exception as FAILED with its text. `execution_time` is always
`time.time() - start_time`. -/
def runAttempt (beh : SsmBehavior) (command : String) (inst : InstanceData)
    (timeout_seconds max_retries attempt clock : Nat) (now : Int) : AttemptStep :=
  let start_time := clock
  let clockB := if attempt > 0 then
      clock + min (BATCH_RETRY_DELAY * attempt) BATCH_RETRY_MAX_DELAY
    else clock
  match attemptTry beh timeout_seconds attempt clockB with
  | .success stdout cEnd =>
    .done { command := command, instance_id := inst.instanceId,
            instance_name := inst.name, status := "SUCCESS",
            output := stdout.trim, error := "",
            execution_time := cEnd - start_time, timestamp := now }
  | .terminalFail stderr details cEnd =>
    if attempt < max_retries then .retry cEnd
    else
      .done { command := command, instance_id := inst.instanceId,
              instance_name := inst.name, status := "FAILED", output := "",
              error := if stderr = "" then details else stderr,
              execution_time := cEnd - start_time, timestamp := now }
  | .pollTimeout cEnd =>
    if attempt < max_retries then .retry cEnd
    else
      .done { command := command, instance_id := inst.instanceId,
              instance_name := inst.name, status := "TIMEOUT", output := "",
              error := "Command timed out after " ++ toString (timeout_seconds + 30) ++ " seconds",
              execution_time := cEnd - start_time, timestamp := now }
  | .exn msg cEnd =>
    if attempt < max_retries then .retry cEnd
    else
      .done { command := command, instance_id := inst.instanceId,
              instance_name := inst.name, status := "FAILED", output := "",
              error := msg, execution_time := cEnd - start_time, timestamp := now }

/-- The `for attempt in range(max_retries + 1)` loop, returning the result and
the number of attempts started. `fuel` is the number of loop iterations still
permitted; exhausting it is Python's implicit `None` return. -/
def execLoop (beh : SsmBehavior) (command : String) (inst : InstanceData)
    (timeout_seconds max_retries : Nat) (now : Int) :
    Nat → Nat → Nat → Option BatchJobResult × Nat
  | 0, _, _ => (none, 0)
  | fuel + 1, attempt, clock =>
    match runAttempt beh command inst timeout_seconds max_retries attempt clock now with
    | .done r => (some r, 1)
    | .retry clock2 =>
      let rest := execLoop beh command inst timeout_seconds max_retries now fuel (attempt + 1) clock2
      (rest.1, rest.2 + 1)

/-- `execute_on_instance` (lines 1175-1353): run the retry loop from attempt 0
with `max_retries + 1` permitted iterations. -/
def execute_on_instance (beh : SsmBehavior) (command : String) (inst : InstanceData)
    (timeout_seconds max_retries : Nat) (now : Int) (clock : Nat) : Option BatchJobResult :=
  (execLoop beh command inst timeout_seconds max_retries now (max_retries + 1) 0 clock).1

/-- Number of attempts `execute_on_instance` starts for a target. -/
def attempts_used (beh : SsmBehavior) (command : String) (inst : InstanceData)
    (timeout_seconds max_retries : Nat) (now : Int) (clock : Nat) : Nat :=
  (execLoop beh command inst timeout_seconds max_retries now (max_retries + 1) 0 clock).2

/-- How one submitted worker terminates at the pool level: it runs
`execute_on_instance` to completion, or some exception escapes it (so that
`future.result()` re-raises in the collection loop). -/
inductive WorkerOutcome where
  | runs (beh : SsmBehavior) (clock : Nat)
  | raised (msg : String)

/-- The FAILED result the collection loop builds when `future.result()`
raises (lines 1369-1382): error text `"Executor error: " + str(e)`,
`execution_time = 0.0`. -/
def executorErrorResult (command : String) (inst : InstanceData) (msg : String)
    (now : Int) : BatchJobResult :=
  { command := command, instance_id := inst.instanceId, instance_name := inst.name,
    status := "FAILED", output := "", error := "Executor error: " ++ msg,
    execution_time := 0, timestamp := now }

/-- The fan-out and collection of `execute_batch_command` (lines 1355-1383):
one future per validated instance; each completed future contributes exactly
one list element — the worker's return value (Python `None` if the worker fell
off the end of its loop), or the executor-error FAILED result when
`future.result()` raised. Completion order is abstracted (the claims under
study are order-independent). -/
def execute_batch_command (command : String) (timeout_seconds max_retries : Nat)
    (now : Int) (jobs : List (InstanceData × WorkerOutcome)) :
    List (Option BatchJobResult) :=
  jobs.map (fun j =>
    match j.2 with
    | .runs beh clock => execute_on_instance beh command j.1 timeout_seconds max_retries now clock
    | .raised msg => some (executorErrorResult command j.1 msg now))

/-! ## Re-drive and history bookkeeping (lines 1385-1425) -/

/-- What a finished worker reported for one target in one pass: the
status/output/error/time fields of its `BatchJobResult`. -/
structure WorkerReport where
  status : String
  output : String
  error : String
  execution_time : Nat
  timestamp : Int
deriving DecidableEq

/-- Assemble the `BatchJobResult` for a target from a worker report: in every
branch of `execute_on_instance` the result carries the target's own
`InstanceId` and `Name`. -/
def reportToResult (command : String) (t : InstanceData) (w : WorkerReport) : BatchJobResult :=
  { command := command, instance_id := t.instanceId, instance_name := t.name,
    status := w.status, output := w.output, error := w.error,
    execution_time := w.execution_time, timestamp := w.timestamp }

/-- `failed_instances` (lines 1393-1397): for each non-SUCCESS result, the
validated instance with the matching `InstanceId` (`next(...)` in the source;
results always originate from the validated list, so the lookup succeeds). -/
def failed_targets (validated : List InstanceData) (results : List BatchJobResult) :
    List InstanceData :=
  (results.filter (fun r => r.status != "SUCCESS")).filterMap
    (fun r => validated.find? (fun t => t.instanceId == r.instance_id))

/-- The replacement loop for one re-drive result (lines 1410-1414): overwrite
the first original result with the same `instance_id`, then `break`. -/
def replaceFirst (rr : BatchJobResult) : List BatchJobResult → List BatchJobResult
  | [] => []
  | r :: tl =>
    if r.instance_id == rr.instance_id then rr :: tl
    else r :: replaceFirst rr tl

/-- Patch the original results with every re-drive result (lines 1410-1414). -/
def patch_results (results retry_results : List BatchJobResult) : List BatchJobResult :=
  retry_results.foldl (fun acc rr => replaceFirst rr acc) results

/-- The orchestration of `execute_batch_command` around the fan-out (lines
1156-1425), with the per-pass worker outputs given by the oracle `outcome`
and the operator's `y/N` answers by `accept`. Returns the result list the
call returns and the `results_history` after the call's final
`self.results_history.extend(results)`. An empty validated list returns `[]`
without touching the history (line 1170). The recursive re-drive call (line
1407) runs on the failed targets with the history as extended by that inner
call; the outer call then extends the history again with its patched result
list. `fuel` bounds the operator-driven recursion depth; at `fuel = 0` the
re-drive offer is declined. -/
def execute_batch_run (command : String) (outcome : Nat → InstanceData → WorkerReport)
    (accept : Nat → Bool) :
    Nat → Nat → List InstanceData → List BatchJobResult →
    List BatchJobResult × List BatchJobResult
  | _, _, [], history => ([], history)
  | 0, pass, t :: ts, history =>
    let results := (t :: ts).map (fun x => reportToResult command x (outcome pass x))
    (results, history ++ results)
  | fuel + 1, pass, t :: ts, history =>
    let validated := t :: ts
    let results := validated.map (fun x => reportToResult command x (outcome pass x))
    let failed := results.filter (fun r => r.status != "SUCCESS")
    if failed.isEmpty || !(accept pass) then (results, history ++ results)
    else
      let inner := execute_batch_run command outcome accept fuel (pass + 1)
        (failed_targets validated results) history
      let final := patch_results results inner.1
      (final, inner.2 ++ final)

/-! ## Concrete inputs used by witnesses and counterexamples -/

/-- A target used in concrete scenarios. -/
def wInst : InstanceData := { instanceId := "i-0abc", name := "web-1" }

/-- A behavior whose every `send_command` raises a `ClientError`: every
attempt fails with a submit error. -/
def throttledBeh : SsmBehavior :=
  { send := fun _ => .clientError "ThrottlingException" "Rate exceeded",
    poll := fun _ _ => .invocation "Success" "" "" "" }

/-- A behavior whose every attempt is dispatched and immediately reports a
terminal `Failed` status on the first poll. -/
def failBeh : SsmBehavior :=
  { send := fun _ => .ok,
    poll := fun _ _ => .invocation "Failed" "" "boom" "" }

/-- A behavior whose every attempt raises a non-`ClientError` exception on the
first poll and would report `Success` on the second. -/
def escBeh : SsmBehavior :=
  { send := fun _ => .ok,
    poll := fun _ i =>
      if i = 0 then .otherError "EndpointConnectionError" else .invocation "Success" "done" "" "" }

/-- A behavior that reports terminal `Success` on the first poll of every
attempt. -/
def okBeh : SsmBehavior :=
  { send := fun _ => .ok,
    poll := fun _ _ => .invocation "Success" "ok" "" "" }

/-- The target's every attempt ends in failure, timeout, or submit error: no
iteration of the retry loop returns a SUCCESS result. -/
def AllAttemptsFail (beh : SsmBehavior) (command : String) (inst : InstanceData)
    (timeout_seconds max_retries : Nat) (now : Int) : Prop :=
  ∀ (attempt clock : Nat) (r : BatchJobResult),
    runAttempt beh command inst timeout_seconds max_retries attempt clock now = .done r →
    r.status ≠ "SUCCESS"

/-- A worker report with the given status and empty contents. -/
def wReport (st : String) : WorkerReport :=
  { status := st, output := "", error := "", execution_time := 0, timestamp := 0 }

/-- A per-pass oracle: every target fails pass 0 and succeeds pass 1. -/
def wOutcome : Nat → InstanceData → WorkerReport :=
  fun pass _ => if pass = 0 then wReport "FAILED" else wReport "SUCCESS"

/-- A second target used in concrete scenarios. -/
def wInst2 : InstanceData := { instanceId := "i-1def", name := "web-2" }

/-- A two-target job list: one worker runs to completion, one raises. -/
def wJobs : List (InstanceData × WorkerOutcome) :=
  [(wInst, .runs okBeh 0), (wInst2, .raised "boom")]

/-- An empty cache over `Nat` payloads. -/
def emptyCacheN : PerformanceCache Nat := { cache := [], background_refresh_active := [] }

/-- A cache with one fresh entry and one in-flight refresh, for frame-effect
witnesses. -/
def witnessCache : PerformanceCache Nat :=
  { cache := [("instances_p_seoul", ⟨7, 0, 120⟩)], background_refresh_active := ["rds_p_seoul"] }

/-! ## Helper lemmas about the dict and string operations -/

theorem contains_append_singleton (l : List String) (k : String) :
    (l ++ [k]).contains k = true := by
  induction l with
  | nil => simp
  | cons a tl ih => simp [List.contains_cons, ih]

theorem contains_filter_self (l : List String) (key : String) :
    (l.filter (fun k => k != key)).contains key = false := by
  rw [Bool.eq_false_iff]
  intro h
  simp [List.mem_filter] at h

theorem find?_dictSet_self {β : Type} (m : List (String × β)) (k : String) (v : β) :
    (dictSet m k v).find? (fun p => p.1 == k) = some (k, v) := by
  induction m with
  | nil => simp [dictSet, List.find?]
  | cons p tl ih =>
    obtain ⟨a, b⟩ := p
    by_cases h : a == k
    · simp [dictSet, h, List.find?]
    · rw [Bool.not_eq_true] at h
      simp [dictSet, List.find?, h, ih]

theorem dictGet_dictSet_self {β : Type} (m : List (String × β)) (k : String) (v : β) :
    dictGet (dictSet m k v) k = some v := by
  simp [dictGet, find?_dictSet_self]

theorem dictGet_dictPop_self {β : Type} (m : List (String × β)) (k : String) :
    dictGet (dictPop m k) k = none := by
  have hf : ((m.filter (fun p => p.1 != k)).find? (fun p => p.1 == k)) = none := by
    rw [List.find?_eq_none]
    intro x hx
    simp only [List.mem_filter, bne_iff_ne, ne_eq] at hx
    simp [hx.2]
  simp [dictGet, dictPop, hf]

theorem pySplit_ne_nil (sep : Char) (cs : List Char) : pySplit sep cs ≠ [] := by
  induction cs with
  | nil => simp [pySplit]
  | cons c tl ih =>
    by_cases h : c = sep
    · simp [pySplit, h]
    · simp only [pySplit, if_neg h]
      rcases hp : pySplit sep tl with _ | ⟨hd, t⟩
      · exact absurd hp ih
      · simp

theorem pySplit_headD (sep : Char) (cs : List Char) :
    (pySplit sep cs).headD [] = cs.takeWhile (fun c => c != sep) := by
  induction cs with
  | nil => rfl
  | cons c tl ih =>
    by_cases h : c = sep
    · simp [pySplit, h, List.takeWhile_cons]
    · rcases hp : pySplit sep tl with _ | ⟨hd, t⟩
      · exact absurd hp (pySplit_ne_nil sep tl)
      · rw [hp] at ih
        simp only [List.headD_cons] at ih
        simp [pySplit, h, hp, List.takeWhile_cons, ih]

theorem dictGet_CACHE_TTLS_default : dictGet CACHE_TTLS "default" = some 300 := by
  rfl

/-! ## Claim theorems: cache -/

/-- C6 (TTL policy resolution): `set` without an explicit TTL derives it
exactly as the spec describes — the text of the key before the first `'_'`,
lowercased, looked up in the TTL policy, with the default TTL (300) when the
prefix is not a policy class; keys with no separator always get the default,
and multi-word resource classes (whose names contain `'_'`) are never matched
because only the text before the first separator is looked up. -/
theorem ttl_policy_resolution (key : String) :
    get_ttl_for_key key = ttlFromSpec key ∧
    get_ttl_for_key "instances_p1_seoul" = 120 ∧
    get_ttl_for_key "cloudwatch_dashboards_p1_seoul" = 300 ∧
    get_ttl_for_key "instances" = 300 := by
  refine ⟨?_, by decide, by decide, by decide⟩
  unfold get_ttl_for_key ttlFromSpec
  by_cases h : key.data.contains '_'
  · simp only [h, if_true]
    rw [pySplit_headD]
    cases dictGet CACHE_TTLS (pyLower (String.mk (key.data.takeWhile fun c => c != '_'))) with
    | none => rw [dictGet_CACHE_TTLS_default]; rfl
    | some t => rfl
  · rw [Bool.not_eq_true] at h
    simp only [h, Bool.false_eq_true, if_false]
    rw [dictGet_CACHE_TTLS_default]

/-- C4 (cache TTL semantics): `get` right after `set key v (ttl := T)` (with
`T` a duration, `0 ≤ T`) returns `v`; once `now - tset > T` it returns
absent; an entry is expired iff `now - created_at > ttl`; and an expired
entry is never returned as a hit. -/
theorem cache_ttl_semantics {α : Type} (c : PerformanceCache α) (key : String)
    (v : α) (T : Int) (tset : Int) (hT : 0 ≤ T) :
    ((c.set key v (some T) tset).get key tset).1 = some v ∧
    (∀ now : Int, now - tset > T → ((c.set key v (some T) tset).get key now).1 = none) ∧
    (∀ (e : CacheEntry α) (now : Int), e.is_expired now = true ↔ now - e.timestamp > e.ttl_seconds) ∧
    (∀ (c2 : PerformanceCache α) (now : Int) (e : CacheEntry α),
       dictGet c2.cache key = some e → e.is_expired now = true → (c2.get key now).1 = none) := by
  have hget : ∀ now : Int,
      dictGet (c.set key v (some T) tset).cache key = some ⟨v, tset, T⟩ := by
    intro now
    simp [PerformanceCache.set, dictGet_dictSet_self]
  refine ⟨?_, fun now hnow => ?_, fun e now => ?_, fun c2 now e he hexp => ?_⟩
  · have hexp : (CacheEntry.is_expired (α := α) ⟨v, tset, T⟩ tset) = false := by
      simp [CacheEntry.is_expired]
      omega
    simp [PerformanceCache.get, hget tset, hexp]
  · have hexp : (CacheEntry.is_expired (α := α) ⟨v, tset, T⟩ now) = true := by
      simp [CacheEntry.is_expired]
      omega
    simp [PerformanceCache.get, hget now, hexp]
  · simp [CacheEntry.is_expired]
  · simp [PerformanceCache.get, he, hexp]

/-- C3 (no duplicate refresh): when `key` is already in flight,
`start_background_refresh` spawns nothing and leaves the state untouched; in
particular the entries map is never modified by this call, and two calls in a
row for a key that was not in flight spawn (and hence invoke the fetch
function) exactly once. -/
theorem no_duplicate_refresh {α : Type} (c : PerformanceCache α) (key : String) :
    (c.background_refresh_active.contains key = true →
       c.start_background_refresh key = (0, c)) ∧
    ((c.start_background_refresh key).2.cache = c.cache) ∧
    (c.background_refresh_active.contains key = false →
       (c.start_background_refresh key).1 = 1 ∧
       ((c.start_background_refresh key).2.start_background_refresh key).1 = 0 ∧
       (c.start_background_refresh key).1 +
         ((c.start_background_refresh key).2.start_background_refresh key).1 = 1) := by
  refine ⟨fun h => ?_, ?_, fun h => ?_⟩
  · have hmem : key ∈ c.background_refresh_active := by simpa using h
    simp [PerformanceCache.start_background_refresh, hmem]
  · by_cases hmem : key ∈ c.background_refresh_active <;>
      simp [PerformanceCache.start_background_refresh, hmem]
  · have hmem : key ∉ c.background_refresh_active := by simpa using h
    simp [PerformanceCache.start_background_refresh, hmem]

/-- C5 (refresh failure isolation): a `refresh_worker` whose fetch failed
leaves the entries map byte-for-byte unchanged — so `get` behaves for its key
exactly as before, until the original TTL expires — and clears the in-flight
marker; a successful one clears the marker as well. The worker is a total
function of the fetch outcome: no outcome re-raises into the caller. -/
theorem refresh_failure_isolation {α : Type} (c : PerformanceCache α) (key : String)
    (err : String) (now : Int) :
    ((c.refresh_worker key (.error err) now).cache = c.cache) ∧
    (∀ t : Int, ((c.refresh_worker key (.error err) now).get key t).1 = (c.get key t).1) ∧
    ((c.refresh_worker key (.error err) now).background_refresh_active.contains key = false) ∧
    (∀ v : α, (c.refresh_worker key (.ok v) now).background_refresh_active.contains key = false) := by
  refine ⟨rfl, fun t => rfl, ?_, fun v => ?_⟩
  · exact contains_filter_self _ key
  · exact contains_filter_self _ key

/-- C10 (get never removes expired entries): `get` returns the state it was
given — entries map and in-flight set unchanged — even when the entry for the
key is expired (it then returns absent while the entry stays in the map);
removal happens only through `invalidate` (which deletes the key) or `clear`
(which empties the map), `set` replacing wholesale. -/
theorem get_is_pure {α : Type} (c : PerformanceCache α) (key : String) (now : Int) :
    ((c.get key now).2 = c) ∧
    ((c.get key now).2.cache = c.cache ∧
     (c.get key now).2.background_refresh_active = c.background_refresh_active) ∧
    (∀ e : CacheEntry α, dictGet c.cache key = some e → e.is_expired now = true →
       (c.get key now).1 = none ∧ dictGet (c.get key now).2.cache key = some e) ∧
    (dictGet (c.invalidate key).cache key = none) ∧
    ((PerformanceCache.clear c).cache = []) := by
  refine ⟨rfl, ⟨rfl, rfl⟩, fun e he hexp => ⟨?_, ?_⟩, ?_, rfl⟩
  · simp [PerformanceCache.get, he, hexp]
  · simpa [PerformanceCache.get] using he
  · exact dictGet_dictPop_self c.cache key

/-! ## Witnesses: cache -/

/-- Witness for C4 at `key = "instances_p_seoul"`, `v = 7`, `T = 120`. -/
theorem cache_ttl_semantics_witness :
    ((emptyCacheN.set "instances_p_seoul" 7 (some 120) 0).get "instances_p_seoul" 0).1 = some 7 ∧
    ((emptyCacheN.set "instances_p_seoul" 7 (some 120) 0).get "instances_p_seoul" 121).1 = none :=
  ⟨(cache_ttl_semantics emptyCacheN "instances_p_seoul" 7 120 0 (by decide)).1,
   (cache_ttl_semantics emptyCacheN "instances_p_seoul" 7 120 0 (by decide)).2.1 121 (by decide)⟩

/-- Witness for C3: a call while `"rds_p_seoul"` is in flight is a no-op, and
two calls for a fresh key spawn exactly one refresh. -/
theorem no_duplicate_refresh_witness :
    witnessCache.start_background_refresh "rds_p_seoul" = (0, witnessCache) ∧
    (emptyCacheN.start_background_refresh "instances_p_seoul").1 +
      ((emptyCacheN.start_background_refresh "instances_p_seoul").2.start_background_refresh
        "instances_p_seoul").1 = 1 :=
  ⟨(no_duplicate_refresh witnessCache "rds_p_seoul").1 (by decide),
   ((no_duplicate_refresh emptyCacheN "instances_p_seoul").2.2 (by decide)).2.2⟩

/-- Witness for C5 on `witnessCache`. -/
theorem refresh_failure_isolation_witness :
    ((witnessCache.refresh_worker "instances_p_seoul" (.error "boom") 5).cache = witnessCache.cache) ∧
    ((witnessCache.refresh_worker "rds_p_seoul" (.error "boom") 5).background_refresh_active.contains
      "rds_p_seoul" = false) :=
  ⟨(refresh_failure_isolation witnessCache "instances_p_seoul" "boom" 5).1,
   (refresh_failure_isolation witnessCache "rds_p_seoul" "boom" 5).2.2.1⟩

/-- Witness for C10: reading the expired entry at time 999 returns absent and
leaves the state unchanged, entry still present. -/
theorem get_is_pure_witness :
    ((witnessCache.get "instances_p_seoul" 999).2 = witnessCache) ∧
    ((witnessCache.get "instances_p_seoul" 999).1 = none) :=
  ⟨(get_is_pure witnessCache "instances_p_seoul" 999).1,
   ((get_is_pure witnessCache "instances_p_seoul" 999).2.2.1 ⟨7, 0, 120⟩ (by decide) (by decide)).1⟩

/-! ## Helper lemmas about the retry loop -/

theorem pollLoop_step_terminal (events : Nat → PollEvent) (mw fuel waited idx clock : Nat)
    (s o e det : String) (hfuel : 0 < fuel) (hw : waited < mw)
    (he : events idx = .invocation s o e det)
    (hterm : s = "Success" ∨ s = "Failed" ∨ s = "Cancelled" ∨ s = "TimedOut") :
    pollLoop events mw fuel waited idx clock = .terminal s o e det clock := by
  cases fuel with
  | zero => omega
  | succ n => simp [pollLoop, hw, he, hterm]

theorem runAttempt_final (beh : SsmBehavior) (cmd : String) (inst : InstanceData)
    (t mr attempt clock : Nat) (now : Int) (h : ¬ attempt < mr) :
    ∃ r, runAttempt beh cmd inst t mr attempt clock now = .done r := by
  simp only [runAttempt]
  cases hA : attemptTry beh t attempt
      (if attempt > 0 then clock + min (BATCH_RETRY_DELAY * attempt) BATCH_RETRY_MAX_DELAY
       else clock) <;>
    simp [h]

theorem runAttempt_done_of_lt (beh : SsmBehavior) (cmd : String) (inst : InstanceData)
    (t mr attempt clock : Nat) (now : Int) (r : BatchJobResult) (h : attempt < mr)
    (hr : runAttempt beh cmd inst t mr attempt clock now = .done r) :
    r.status = "SUCCESS" := by
  simp only [runAttempt] at hr
  cases hA : attemptTry beh t attempt
      (if attempt > 0 then clock + min (BATCH_RETRY_DELAY * attempt) BATCH_RETRY_MAX_DELAY
       else clock) <;>
    rw [hA] at hr <;> simp [h] at hr <;> simp [← hr]

theorem runAttempt_done_status (beh : SsmBehavior) (cmd : String) (inst : InstanceData)
    (t mr attempt clock : Nat) (now : Int) (r : BatchJobResult)
    (hr : runAttempt beh cmd inst t mr attempt clock now = .done r) :
    r.status = "SUCCESS" ∨ r.status = "FAILED" ∨ r.status = "TIMEOUT" := by
  simp only [runAttempt] at hr
  cases hA : attemptTry beh t attempt
      (if attempt > 0 then clock + min (BATCH_RETRY_DELAY * attempt) BATCH_RETRY_MAX_DELAY
       else clock) <;>
    rw [hA] at hr
  case success o c2 => simp at hr; simp [← hr]
  case terminalFail e det c2 =>
    by_cases h : attempt < mr <;> simp [h] at hr <;> simp [← hr]
  case pollTimeout c2 =>
    by_cases h : attempt < mr <;> simp [h] at hr <;> simp [← hr]
  case exn m c2 =>
    by_cases h : attempt < mr <;> simp [h] at hr <;> simp [← hr]

theorem execLoop_succ (beh : SsmBehavior) (cmd : String) (inst : InstanceData)
    (t mr : Nat) (now : Int) (fuel attempt clock : Nat) :
    execLoop beh cmd inst t mr now (fuel + 1) attempt clock =
      match runAttempt beh cmd inst t mr attempt clock now with
      | .done r => (some r, 1)
      | .retry c2 => ((execLoop beh cmd inst t mr now fuel (attempt + 1) c2).1,
                      (execLoop beh cmd inst t mr now fuel (attempt + 1) c2).2 + 1) := by
  rfl

theorem execLoop_total (beh : SsmBehavior) (cmd : String) (inst : InstanceData)
    (t mr : Nat) (now : Int) :
    ∀ (n attempt clock : Nat), attempt + n = mr →
      ∃ r k, execLoop beh cmd inst t mr now (n + 1) attempt clock = (some r, k) := by
  intro n
  induction n with
  | zero =>
    intro attempt clock h
    obtain ⟨r, hr⟩ := runAttempt_final beh cmd inst t mr attempt clock now (by omega)
    exact ⟨r, 1, by simp [execLoop, hr]⟩
  | succ n ih =>
    intro attempt clock h
    cases hstep : runAttempt beh cmd inst t mr attempt clock now with
    | done r => exact ⟨r, 1, by simp [execLoop, hstep]⟩
    | retry c2 =>
      obtain ⟨r, k, hk⟩ := ih (attempt + 1) c2 (by omega)
      exact ⟨r, k + 1, by rw [execLoop_succ, hstep]; simp [hk]⟩

theorem execLoop_all_fail (beh : SsmBehavior) (cmd : String) (inst : InstanceData)
    (t mr : Nat) (now : Int)
    (hfail : AllAttemptsFail beh cmd inst t mr now) :
    ∀ (n attempt clock : Nat), attempt + n = mr →
      ∃ r c2, runAttempt beh cmd inst t mr mr c2 now = .done r ∧
        execLoop beh cmd inst t mr now (n + 1) attempt clock = (some r, n + 1) := by
  intro n
  induction n with
  | zero =>
    intro attempt clock h
    have ha : attempt = mr := by omega
    subst ha
    obtain ⟨r, hr⟩ := runAttempt_final beh cmd inst t attempt attempt clock now (by omega)
    exact ⟨r, clock, hr, by simp [execLoop, hr]⟩
  | succ n ih =>
    intro attempt clock h
    cases hstep : runAttempt beh cmd inst t mr attempt clock now with
    | done r =>
      have hS := runAttempt_done_of_lt beh cmd inst t mr attempt clock now r (by omega) hstep
      exact absurd hS (hfail attempt clock r hstep)
    | retry c2 =>
      obtain ⟨r, c3, hr, hloop⟩ := ih (attempt + 1) c2 (by omega)
      exact ⟨r, c3, hr, by rw [execLoop_succ, hstep]; simp [hloop]⟩

/-! ## Clock-shift lemmas: an attempt's outcome does not depend on the wall
clock at which it starts, and its recorded duration shifts out. -/

theorem pollLoop_shift (events : Nat → PollEvent) (mw d : Nat) :
    ∀ fuel waited idx clock,
      pollLoop events mw fuel waited idx (clock + d) =
        match pollLoop events mw fuel waited idx clock with
        | .terminal s o e det c2 => .terminal s o e det (c2 + d)
        | .timedOut c2 => .timedOut (c2 + d)
        | .escaped m c2 => .escaped m (c2 + d) := by
  intro fuel
  induction fuel with
  | zero => intro waited idx clock; rfl
  | succ n ih =>
    intro waited idx clock
    by_cases hw : waited < mw
    · cases hev : events idx with
      | invocation s o e det =>
        by_cases hterm : s = "Success" ∨ s = "Failed" ∨ s = "Cancelled" ∨ s = "TimedOut"
        · simp [pollLoop, hw, hev, hterm]
        · simp only [pollLoop, hw, if_true, hev, hterm, if_false]
          rw [Nat.add_right_comm clock d 3]
          exact ih (waited + 3) (idx + 1) (clock + 3)
      | clientError code =>
        by_cases hc : code = "InvocationDoesNotExist"
        · simp only [pollLoop, hw, if_true, hev, hc, if_pos]
          rw [Nat.add_right_comm clock d 2]
          exact ih (waited + 2) (idx + 1) (clock + 2)
        · simp only [pollLoop, hw, if_true, hev, hc, if_neg, if_false]
          rw [Nat.add_right_comm clock d WAIT_PORT_READY]
          exact ih (waited + 2) (idx + 1) (clock + WAIT_PORT_READY)
      | otherError m => simp [pollLoop, hw, hev]
    · simp [pollLoop, hw]

theorem attemptTry_shift (beh : SsmBehavior) (t attempt clock d : Nat) :
    attemptTry beh t attempt (clock + d) =
      match attemptTry beh t attempt clock with
      | .success o c2 => .success o (c2 + d)
      | .terminalFail e det c2 => .terminalFail e det (c2 + d)
      | .pollTimeout c2 => .pollTimeout (c2 + d)
      | .exn m c2 => .exn m (c2 + d) := by
  cases hs : beh.send attempt with
  | ok =>
    simp only [attemptTry, hs]
    rw [pollLoop_shift]
    cases pollLoop (beh.poll attempt) (t + 30) 200 0 0 clock with
    | terminal s o e det c2 =>
      by_cases hsu : s = "Success" <;> simp [hsu]
    | timedOut c2 => simp
    | escaped m c2 => simp
  | clientError code msg => simp [attemptTry, hs]
  | otherError msg => simp [attemptTry, hs]

theorem runAttempt_shift (beh : SsmBehavior) (cmd : String) (inst : InstanceData)
    (t mr attempt clock d : Nat) (now : Int) :
    runAttempt beh cmd inst t mr attempt (clock + d) now =
      match runAttempt beh cmd inst t mr attempt clock now with
      | .done r => .done r
      | .retry c2 => .retry (c2 + d) := by
  have hB : (if attempt > 0 then
        (clock + d) + min (BATCH_RETRY_DELAY * attempt) BATCH_RETRY_MAX_DELAY
      else clock + d) =
      (if attempt > 0 then clock + min (BATCH_RETRY_DELAY * attempt) BATCH_RETRY_MAX_DELAY
       else clock) + d := by
    by_cases h0 : attempt > 0 <;> simp [h0, Nat.add_right_comm]
  simp only [runAttempt, hB, attemptTry_shift]
  cases attemptTry beh t attempt
      (if attempt > 0 then clock + min (BATCH_RETRY_DELAY * attempt) BATCH_RETRY_MAX_DELAY
       else clock) with
  | success o c2 => simp [Nat.add_sub_add_right]
  | terminalFail e det c2 =>
    by_cases h : attempt < mr <;> simp [h, Nat.add_sub_add_right]
  | pollTimeout c2 =>
    by_cases h : attempt < mr <;> simp [h, Nat.add_sub_add_right]
  | exn m c2 =>
    by_cases h : attempt < mr <;> simp [h, Nat.add_sub_add_right]

/-! ## Claim theorems: batch executor -/

/-- C1 (batch result completeness): the executor produces exactly one element
per validated target; every element is an actual `BatchJobResult` (no worker
ever falls off its retry loop to Python's implicit `None`); and a worker whose
exception escapes to `future.result()` contributes a FAILED result carrying
`"Executor error: " + str(e)` instead of being dropped or propagated. -/
theorem batch_result_completeness (command : String) (timeout_seconds max_retries : Nat)
    (now : Int) (jobs : List (InstanceData × WorkerOutcome)) :
    (execute_batch_command command timeout_seconds max_retries now jobs).length = jobs.length ∧
    (∀ o ∈ execute_batch_command command timeout_seconds max_retries now jobs, ∃ r, o = some r) ∧
    (∀ (inst : InstanceData) (msg : String), (inst, WorkerOutcome.raised msg) ∈ jobs →
       some (executorErrorResult command inst msg now) ∈
         execute_batch_command command timeout_seconds max_retries now jobs ∧
       (executorErrorResult command inst msg now).status = "FAILED" ∧
       (executorErrorResult command inst msg now).error = "Executor error: " ++ msg) := by
  refine ⟨by simp [execute_batch_command], ?_, ?_⟩
  · intro o ho
    simp only [execute_batch_command, List.mem_map] at ho
    obtain ⟨⟨inst, w⟩, hj, rfl⟩ := ho
    cases w with
    | runs beh clock =>
      obtain ⟨r, k, hk⟩ :=
        execLoop_total beh command inst timeout_seconds max_retries now max_retries 0 clock
          (by omega)
      exact ⟨r, by simp [execute_on_instance, hk]⟩
    | raised msg => exact ⟨_, rfl⟩
  · intro inst msg hmem
    refine ⟨?_, rfl, rfl⟩
    simp only [execute_batch_command, List.mem_map]
    exact ⟨(inst, .raised msg), hmem, rfl⟩

/-- C2 (retry ceiling): a target whose every attempt fails is attempted
exactly `max_retries + 1` times — `max_retries` retries beyond the first
attempt, no further automatic retry — and its final outcome is reported as
FAILED or TIMEOUT; the configured default is `BATCH_COMMAND_RETRY = 3`. -/
theorem retry_ceiling (beh : SsmBehavior) (command : String) (inst : InstanceData)
    (timeout_seconds max_retries : Nat) (now : Int) (clock : Nat)
    (hfail : AllAttemptsFail beh command inst timeout_seconds max_retries now) :
    (∃ r, execute_on_instance beh command inst timeout_seconds max_retries now clock = some r ∧
       (r.status = "FAILED" ∨ r.status = "TIMEOUT")) ∧
    attempts_used beh command inst timeout_seconds max_retries now clock = max_retries + 1 ∧
    BATCH_COMMAND_RETRY = 3 := by
  obtain ⟨r, c2, hr, hloop⟩ :=
    execLoop_all_fail beh command inst timeout_seconds max_retries now hfail max_retries 0 clock
      (by omega)
  refine ⟨⟨r, ?_, ?_⟩, ?_, rfl⟩
  · simp [execute_on_instance, hloop]
  · have h3 := runAttempt_done_status beh command inst timeout_seconds max_retries max_retries
      c2 now r hr
    have h4 := hfail max_retries c2 r hr
    tauto
  · simp [attempts_used, hloop]

/-- C7 counterexample: `max_retries = 2`, every attempt dispatched and
immediately reported terminal `Failed` (all remote calls instantaneous). The
wall clock advances only by the backoffs 10s and 20s, so the claimed "total
elapsed time of all three attempts" is 30s; but the recorded FAILED result
carries `execution_time = 20` — only the final attempt's span (its 20s
backoff), because `start_time` is reset at the top of every attempt. -/
theorem failure_elapsed_counterexample :
    (execute_on_instance failBeh "uptime" wInst 120 2 0 0).map (fun r => r.execution_time) =
      some 20 ∧
    ¬((execute_on_instance failBeh "uptime" wInst 120 2 0 0).map (fun r => r.execution_time) =
      some 30) := by
  decide

/-- C7 amended: for a target whose every attempt fails, the reported
FAILED/TIMEOUT result is exactly the final attempt's step computed in
isolation (from wall clock 0): its `execution_time` covers only the final
attempt — that attempt's backoff plus its own duration — and is independent
of the time spent in earlier attempts and earlier backoffs. -/
theorem failure_elapsed_final_attempt (beh : SsmBehavior) (command : String)
    (inst : InstanceData) (timeout_seconds max_retries : Nat) (now : Int) (clock : Nat)
    (hfail : AllAttemptsFail beh command inst timeout_seconds max_retries now) :
    ∃ r, execute_on_instance beh command inst timeout_seconds max_retries now clock = some r ∧
      runAttempt beh command inst timeout_seconds max_retries max_retries 0 now = .done r := by
  obtain ⟨r, c2, hr, hloop⟩ :=
    execLoop_all_fail beh command inst timeout_seconds max_retries now hfail max_retries 0 clock
      (by omega)
  refine ⟨r, by simp [execute_on_instance, hloop], ?_⟩
  have hs := runAttempt_shift beh command inst timeout_seconds max_retries max_retries 0 c2 now
  rw [Nat.zero_add] at hs
  cases h0 : runAttempt beh command inst timeout_seconds max_retries max_retries 0 now with
  | done r0 =>
    rw [h0] at hs
    simp only [] at hs
    rw [hs] at hr
    simp only [AttemptStep.done.injEq] at hr
    rw [hr]
  | retry c0 =>
    rw [h0] at hs
    simp only [] at hs
    rw [hs] at hr
    exact absurd hr (by simp)

/-- C8 counterexample: a behavior whose every attempt raises a
non-`ClientError` exception (`EndpointConnectionError`) on its first poll and
would report `Success` on its second. The claim says any unexpected exception
during polling is treated as not-yet-terminal and polling continues, which
would make the run SUCCESS; in fact the exception escapes the polling loop,
aborts every attempt, and the run ends FAILED. -/
theorem polling_exception_counterexample :
    pollLoop (escBeh.poll 0) 150 200 0 0 0 = .escaped "EndpointConnectionError" 0 ∧
    (execute_on_instance escBeh "uptime" wInst 120 3 0 0).map (fun r => r.status) =
      some "FAILED" ∧
    ¬((execute_on_instance escBeh "uptime" wInst 120 3 0 0).map (fun r => r.status) =
      some "SUCCESS") := by
  decide

/-- C8 amended: a `ClientError` raised while polling — the transient
`InvocationDoesNotExist` lookup error or any other `ClientError` code — is
treated as not-yet-terminal: the loop sleeps, charges the wait budget, and
continues under the same wait/attempt ceilings. A non-`ClientError` exception
instead escapes the polling loop and aborts the attempt (to be handled by the
per-target retry loop). -/
theorem polling_clienterror_absorbed (events : Nat → PollEvent)
    (maxWait fuel waited idx clock : Nat) (hw : waited < maxWait) :
    (∀ code, events idx = .clientError code →
       pollLoop events maxWait (fuel + 1) waited idx clock =
         pollLoop events maxWait fuel (waited + 2) (idx + 1)
           (clock + (if code = "InvocationDoesNotExist" then 2 else WAIT_PORT_READY))) ∧
    (∀ msg, events idx = .otherError msg →
       pollLoop events maxWait (fuel + 1) waited idx clock = .escaped msg clock) := by
  constructor
  · intro code he
    by_cases hc : code = "InvocationDoesNotExist" <;> simp [pollLoop, hw, he, hc]
  · intro msg he
    simp [pollLoop, hw, he]

/-- C9 (re-drive results double-appended to history): one target failing
pass 0, the operator accepts the re-drive, and the target succeeds pass 1.
The returned result set holds the re-drive's SUCCESS result once, but the
history receives it twice — once from the inner recursive call's own
`extend`, and again when the outer call extends with its patched results. -/
theorem redrive_double_append (command : String) (outcome : Nat → InstanceData → WorkerReport)
    (accept : Nat → Bool) (t : InstanceData) (history : List BatchJobResult)
    (h0 : (outcome 0 t).status ≠ "SUCCESS")
    (h1 : (outcome 1 t).status = "SUCCESS")
    (hacc : accept 0 = true) :
    execute_batch_run command outcome accept 2 0 [t] history =
      ([reportToResult command t (outcome 1 t)],
       history ++ [reportToResult command t (outcome 1 t)]
         ++ [reportToResult command t (outcome 1 t)]) ∧
    (history ++ [reportToResult command t (outcome 1 t)]
       ++ [reportToResult command t (outcome 1 t)]).count (reportToResult command t (outcome 1 t)) =
      history.count (reportToResult command t (outcome 1 t)) + 2 := by
  have hb0 : ((outcome 0 t).status != "SUCCESS") = true := by simp [h0]
  have hb1 : ((outcome 1 t).status != "SUCCESS") = false := by simp [h1]
  constructor
  · simp [execute_batch_run, hb0, hb1, hacc, h0, h1, failed_targets, patch_results,
      replaceFirst, reportToResult]
  · simp [List.count_append]

/-! ## Witnesses: batch executor -/

theorem throttledBeh_all_fail (command : String) (inst : InstanceData)
    (timeout_seconds max_retries : Nat) (now : Int) :
    AllAttemptsFail throttledBeh command inst timeout_seconds max_retries now := by
  intro attempt clock r h
  simp only [runAttempt, attemptTry, throttledBeh] at h
  by_cases hlt : attempt < max_retries
  · simp [hlt] at h
  · simp [hlt] at h
    simp [← h]

theorem failBeh_all_fail (command : String) (inst : InstanceData)
    (timeout_seconds max_retries : Nat) (now : Int) :
    AllAttemptsFail failBeh command inst timeout_seconds max_retries now := by
  intro attempt clock r h
  have hA : ∀ c : Nat, attemptTry failBeh timeout_seconds attempt c = .terminalFail "boom" "" c := by
    intro c
    simp only [attemptTry, failBeh]
    rw [pollLoop_step_terminal _ _ 200 0 0 c "Failed" "" "boom" "" (by omega) (by omega) rfl
      (by simp)]
    simp
  simp only [runAttempt, hA] at h
  by_cases hlt : attempt < max_retries
  · simp [hlt] at h
  · simp [hlt] at h
    simp [← h]

/-- Witness for C1 on a two-target run: two results, and the raised worker's
converted FAILED result is present. -/
theorem batch_result_completeness_witness :
    (execute_batch_command "uptime" 120 3 0 wJobs).length = 2 ∧
    some (executorErrorResult "uptime" wInst2 "boom" 0) ∈
      execute_batch_command "uptime" 120 3 0 wJobs :=
  ⟨(batch_result_completeness "uptime" 120 3 0 wJobs).1,
   ((batch_result_completeness "uptime" 120 3 0 wJobs).2.2 wInst2 "boom"
      (List.Mem.tail _ (List.Mem.head _))).1⟩

/-- Witness for C2: a target whose every dispatch is throttled ends FAILED
after exactly 4 attempts when `max_retries = 3`. -/
theorem retry_ceiling_witness :
    (∃ r, execute_on_instance throttledBeh "uptime" wInst 120 3 0 0 = some r ∧
       (r.status = "FAILED" ∨ r.status = "TIMEOUT")) ∧
    attempts_used throttledBeh "uptime" wInst 120 3 0 0 = 3 + 1 :=
  ⟨(retry_ceiling throttledBeh "uptime" wInst 120 3 0 0
      (throttledBeh_all_fail "uptime" wInst 120 3 0)).1,
   (retry_ceiling throttledBeh "uptime" wInst 120 3 0 0
      (throttledBeh_all_fail "uptime" wInst 120 3 0)).2.1⟩

/-- Witness for the amended C7 on the always-`Failed` behavior with
`max_retries = 2`. -/
theorem failure_elapsed_final_attempt_witness :
    ∃ r, execute_on_instance failBeh "uptime" wInst 120 2 0 0 = some r ∧
      runAttempt failBeh "uptime" wInst 120 2 2 0 0 = .done r :=
  failure_elapsed_final_attempt failBeh "uptime" wInst 120 2 0 0
    (failBeh_all_fail "uptime" wInst 120 2 0)

/-- Witness for the amended C8: an `InvocationDoesNotExist` lookup error on
the first poll makes the loop continue with the budget charged. -/
theorem polling_clienterror_absorbed_witness :
    pollLoop (fun _ => PollEvent.clientError "InvocationDoesNotExist") 150 200 0 0 0 =
      pollLoop (fun _ => PollEvent.clientError "InvocationDoesNotExist") 150 199 2 1
        (0 + (if "InvocationDoesNotExist" = "InvocationDoesNotExist" then 2
              else WAIT_PORT_READY)) :=
  (polling_clienterror_absorbed (fun _ => PollEvent.clientError "InvocationDoesNotExist")
      150 199 0 0 0 (by decide)).1 "InvocationDoesNotExist" rfl

/-- Witness for C9: one target, failing pass 0, succeeding the accepted
re-drive; the SUCCESS result is appended to the history twice. -/
theorem redrive_double_append_witness :
    execute_batch_run "uptime" wOutcome (fun _ => true) 2 0 [wInst] [] =
      ([reportToResult "uptime" wInst (wOutcome 1 wInst)],
       [] ++ [reportToResult "uptime" wInst (wOutcome 1 wInst)]
         ++ [reportToResult "uptime" wInst (wOutcome 1 wInst)]) :=
  (redrive_double_append "uptime" wOutcome (fun _ => true) wInst [] (by decide) (by decide)
    rfl).1

end EC2Menu
